import Mathlib

/-!
Verification of the automation command bridge of XAIApp.

The definitions below are a shallow embedding of
`src/android/app/src/main/java/com/aiotapp/automation/AutomationModule.kt`
(the `AutomationService` accessibility service, its companion object, and
the React Native `AutomationModule` bridge) and of `src/automation.ts`
(the TypeScript façade).  Coordinates and durations carry no arithmetic in
the source other than a single `coerceAtLeast(1L)` clamp, so they are
modelled as `Int`.  Side effects (clipboard writes, accessibility actions,
gesture submissions, promise resolutions) are made explicit as returned
records and effect traces.
-/

/-- A drawing command on `android.graphics.Path`, as used by the service:
`moveTo` and `lineTo` are the only commands the source issues. -/
inductive PathCmd
  | moveTo (x y : Int)
  | lineTo (x y : Int)
deriving DecidableEq, Repr

/-- A path is the sequence of commands applied to a fresh `Path()`. -/
abbrev GesturePath := List PathCmd

/-- Embedding of `GestureDescription` restricted to what the source builds:
a single stroke with a path, a start time and a duration. -/
structure GestureDescription where
  path : GesturePath
  startTime : Int
  duration : Int
deriving DecidableEq, Repr

/-- `AutomationService.buildGesture`: clamps the duration with
`durationMs.coerceAtLeast(1L)` and wraps the path in a single stroke
starting at time 0. -/
def buildGesture (path : GesturePath) (durationMs : Int) : GestureDescription :=
  { path := path, startTime := 0, duration := max durationMs 1 }

/-- `AutomationService.gestureForTap`: a path holding a single `moveTo`. -/
def gestureForTap (x y : Int) (durationMs : Int) : GestureDescription :=
  buildGesture [PathCmd.moveTo x y] durationMs

/-- `AutomationService.gestureForSwipe`: `moveTo` the start point then
`lineTo` the end point. -/
def gestureForSwipe (startX startY endX endY : Int) (durationMs : Int) :
    GestureDescription :=
  buildGesture [PathCmd.moveTo startX startY, PathCmd.lineTo endX endY] durationMs

/-- A point of the plane with real coordinates, used to give paths their
geometric meaning. -/
def pt (p : Int × Int) : ℝ × ℝ := ((p.1 : ℝ), (p.2 : ℝ))

/-- The set of plane points a path passes through, starting from `cur`:
`moveTo` contributes its target point, `lineTo` contributes the whole
segment from the current point to its target. -/
def traceFrom : ℝ × ℝ → GesturePath → Set (ℝ × ℝ)
  | _, [] => ∅
  | _, PathCmd.moveTo x y :: rest =>
      insert (pt (x, y)) (traceFrom (pt (x, y)) rest)
  | cur, PathCmd.lineTo x y :: rest =>
      segment ℝ cur (pt (x, y)) ∪ traceFrom (pt (x, y)) rest

/-- The geometric trace of a path (a fresh `Path()` starts at the origin). -/
def pathTrace (p : GesturePath) : Set (ℝ × ℝ) :=
  traceFrom (pt (0, 0)) p

/-- The asynchronous terminal signal the OS delivers to a
`GestureResultCallback` for an accepted gesture. -/
inductive GestureSignal
  | completed
  | cancelled
deriving DecidableEq, Repr

/-- The observable behavior of the platform for one `dispatchGesture`
submission: the boolean the call returns synchronously, and the list of
asynchronous signals later delivered to the registered callback. -/
structure OsBehavior where
  accepted : Bool
  signals : List GestureSignal
deriving DecidableEq, Repr

/-- The platform contract of `AccessibilityService.dispatchGesture`: when
the call returns `false` the gesture was not dispatched and the callback
never fires; when it returns `true` exactly one terminal signal
(completed or cancelled) is delivered. -/
def OsBehavior.wf : OsBehavior → Bool
  | ⟨true, [_]⟩ => true
  | ⟨false, []⟩ => true
  | _ => false

/-- How `dispatchGestureWithCallback` maps one terminal signal to the
boolean handed to the caller: `onCompleted` reports `true`, `onCancelled`
reports `false`. -/
def signalToBool : GestureSignal → Bool
  | GestureSignal.completed => true
  | GestureSignal.cancelled => false

/-- `AutomationService.dispatchGestureWithCallback`: submits the gesture;
if `dispatchGesture` returned `false` it invokes the callback with `false`
immediately, and every asynchronous signal invokes the callback with its
boolean image.  The result is the ordered list of callback invocations. -/
def dispatchGestureWithCallback (b : OsBehavior) : List Bool :=
  (if b.accepted then [] else [false]) ++ b.signals.map signalToBool

/-- An accessibility node as the paste path observes it: whether it accepts
`ACTION_SET_TEXT` and whether it accepts `ACTION_PASTE`. -/
structure NodeRef where
  acceptsSetText : Bool
  acceptsPaste : Bool
deriving DecidableEq, Repr

/-- The root node of the active window, carrying the results of the two
`findFocus` queries the source performs. -/
structure RootNode where
  inputFocus : Option NodeRef
  accessibilityFocus : Option NodeRef
deriving DecidableEq, Repr

/-- The service environment seen by one `pasteInternal` call:
`rootInActiveWindow` may be absent. -/
structure ServiceEnv where
  rootInActiveWindow : Option RootNode
deriving DecidableEq, Repr

/-- The system clipboard: `none` before any clip is set, otherwise the text
of the primary clip. -/
structure ClipboardState where
  clip : Option String
deriving DecidableEq, Repr

/-- Side effects `pasteInternal` can perform on the target node and the
clipboard, in program order. -/
inductive Effect
  | setTextAttempt (text : String)
  | clipboardWrite (text : String)
  | pasteAttempt
deriving DecidableEq, Repr

/-- The focused-target lookup of `pasteInternal`:
`rootInActiveWindow?.findFocus(FOCUS_INPUT)
 ?: rootInActiveWindow?.findFocus(FOCUS_ACCESSIBILITY)`. -/
def findFocusTarget (env : ServiceEnv) : Option NodeRef :=
  match env.rootInActiveWindow.bind RootNode.inputFocus with
  | some n => some n
  | none => env.rootInActiveWindow.bind RootNode.accessibilityFocus

/-- Everything one `pasteInternal` call produces: the ordered callback
invocations, the clipboard afterwards, and the trace of node/clipboard
effects. -/
structure PasteResult where
  resolved : List Bool
  clipboard : ClipboardState
  effects : List Effect
deriving DecidableEq, Repr

/-- `AutomationService.pasteInternal`: look up the focused target (input
focus first, then accessibility focus); with no target report `false`.
Otherwise try `ACTION_SET_TEXT`; on acceptance report `true`.  Otherwise
write the text to the clipboard, try `ACTION_PASTE`, and report its
result. -/
def pasteInternal (env : ServiceEnv) (text : String) (st : ClipboardState) :
    PasteResult :=
  match findFocusTarget env with
  | none => { resolved := [false], clipboard := st, effects := [] }
  | some node =>
      if node.acceptsSetText then
        { resolved := [true], clipboard := st,
          effects := [Effect.setTextAttempt text] }
      else
        { resolved := [node.acceptsPaste],
          clipboard := { clip := some text },
          effects := [Effect.setTextAttempt text,
                      Effect.clipboardWrite text,
                      Effect.pasteAttempt] }

/-- `AutomationService.Companion.tap`: `withService` returns `false`
without acting when no connected instance exists; otherwise it builds the
tap gesture and dispatches it.  Result: (started, callback invocations,
gestures submitted to the capability). -/
def serviceTap (inst : Bool) (os : OsBehavior) (x y durationMs : Int) :
    Bool × List Bool × List GestureDescription :=
  if inst then
    (true, dispatchGestureWithCallback os, [gestureForTap x y durationMs])
  else
    (false, [], [])

/-- `AutomationService.Companion.swipe`, analogous to `serviceTap`. -/
def serviceSwipe (inst : Bool) (os : OsBehavior)
    (startX startY endX endY durationMs : Int) :
    Bool × List Bool × List GestureDescription :=
  if inst then
    (true, dispatchGestureWithCallback os,
      [gestureForSwipe startX startY endX endY durationMs])
  else
    (false, [], [])

/-- `AutomationService.Companion.pasteText`: `withService` then
`pasteInternal`. -/
def servicePasteText (inst : Bool) (env : ServiceEnv) (text : String)
    (st : ClipboardState) : Bool × PasteResult :=
  if inst then
    (true, pasteInternal env text st)
  else
    (false, { resolved := [], clipboard := st, effects := [] })

/-- What the React Native bridge does to the caller's promise: each entry is
one resolution with a boolean or one rejection with an error code. -/
inductive PromiseOutcome
  | resolved (value : Bool)
  | rejected (code : String)
deriving DecidableEq, Repr

/-- The error code the module rejects with when the service is not
running. -/
def serviceNotRunningCode : String := "SERVICE_NOT_RUNNING"

/-- Result of one gesture method of `AutomationModule`: the ordered promise
events and the gestures that reached the capability. -/
structure GestureModuleResult where
  promiseEvents : List PromiseOutcome
  dispatched : List GestureDescription
deriving DecidableEq, Repr

/-- `AutomationModule.tap`: calls the companion `tap`, resolves the promise
with each callback boolean, and rejects with `SERVICE_NOT_RUNNING` when the
companion reported not-started. -/
def moduleTap (inst : Bool) (os : OsBehavior) (x y durationMs : Int) :
    GestureModuleResult :=
  let r := serviceTap inst os x y durationMs
  { promiseEvents :=
      r.2.1.map PromiseOutcome.resolved ++
        (if r.1 then [] else [PromiseOutcome.rejected serviceNotRunningCode]),
    dispatched := r.2.2 }

/-- `AutomationModule.swipe`, analogous to `moduleTap`. -/
def moduleSwipe (inst : Bool) (os : OsBehavior)
    (startX startY endX endY durationMs : Int) : GestureModuleResult :=
  let r := serviceSwipe inst os startX startY endX endY durationMs
  { promiseEvents :=
      r.2.1.map PromiseOutcome.resolved ++
        (if r.1 then [] else [PromiseOutcome.rejected serviceNotRunningCode]),
    dispatched := r.2.2 }

/-- Result of `AutomationModule.pasteText`: promise events, clipboard
afterwards, node/clipboard effects. -/
structure PasteModuleResult where
  promiseEvents : List PromiseOutcome
  clipboard : ClipboardState
  effects : List Effect
deriving DecidableEq, Repr

/-- `AutomationModule.pasteText`: calls the companion `pasteText`, resolves
the promise with each callback boolean, and rejects with
`SERVICE_NOT_RUNNING` when the companion reported not-started. -/
def modulePasteText (inst : Bool) (env : ServiceEnv) (text : String)
    (st : ClipboardState) : PasteModuleResult :=
  let r := servicePasteText inst env text st
  { promiseEvents :=
      r.2.resolved.map PromiseOutcome.resolved ++
        (if r.1 then [] else [PromiseOutcome.rejected serviceNotRunningCode]),
    clipboard := r.2.clipboard,
    effects := r.2.effects }

/-- `AutomationModule.openAccessibilitySettings`: resolves `true` unless
`startActivity` throws, in which case it rejects with
`OPEN_SETTINGS_FAILED`. -/
def moduleOpenAccessibilitySettings (startActivityThrows : Bool) :
    PromiseOutcome :=
  if startActivityThrows then PromiseOutcome.rejected "OPEN_SETTINGS_FAILED"
  else PromiseOutcome.resolved true

/-- `AutomationModule.openApp`: resolves `false` when no launch intent
exists for the package; otherwise resolves `true` unless `startActivity`
throws, in which case it rejects with `OPEN_APP_FAILED`. -/
def moduleOpenApp (launchIntent : Option Unit) (startActivityThrows : Bool) :
    PromiseOutcome :=
  match launchIntent with
  | none => PromiseOutcome.resolved false
  | some _ =>
      if startActivityThrows then PromiseOutcome.rejected "OPEN_APP_FAILED"
      else PromiseOutcome.resolved true

/-- The platforms `react-native` can report in `Platform.OS`. -/
inductive Platform
  | android
  | ios
  | windows
  | macos
  | web
deriving DecidableEq, Repr

/-- A call into the native `AutomationModule`, recorded by the façade
embedding so that "the call reached the native layer" is observable. -/
inductive NativeCall
  | isAccessibilityServiceRunning
  | openAccessibilitySettings
  | openApp (packageName : String)
  | tap (x y durationMs : Int)
  | swipe (startX startY endX endY durationMs : Int)
  | pasteText (text : String)
deriving DecidableEq, Repr

/-- `src/automation.ts`: the `nativeModule` constant is the native module
on Android and `null` elsewhere. -/
def nativeModule (os : Platform) : Option Unit :=
  if os = Platform.android then some () else none

/-- The message `ensureAvailable` throws with on non-Android platforms. -/
def unavailableMessage : String := "自动化功能仅支持已开启无障碍的 Android 设备。"

/-- `ensureAvailable` in `src/automation.ts`: throws when `nativeModule`
is null. -/
def ensureAvailable (os : Platform) : Except String Unit :=
  match nativeModule os with
  | none => Except.error unavailableMessage
  | some u => Except.ok u

/-- A façade operation of `src/automation.ts`: `ensureAvailable` first,
then the corresponding native call.  An `Except.error` is a rejected
promise (the `async` wrapper turns the throw into a rejection); an
`Except.ok` records the native call that is performed. -/
def facadeIsServiceRunning (os : Platform) : Except String NativeCall :=
  match ensureAvailable os with
  | Except.error e => Except.error e
  | Except.ok _ => Except.ok NativeCall.isAccessibilityServiceRunning

/-- `openAccessibilitySettings` of `src/automation.ts`. -/
def facadeOpenAccessibilitySettings (os : Platform) : Except String NativeCall :=
  match ensureAvailable os with
  | Except.error e => Except.error e
  | Except.ok _ => Except.ok NativeCall.openAccessibilitySettings

/-- `openApp` of `src/automation.ts`. -/
def facadeOpenApp (os : Platform) (packageName : String) :
    Except String NativeCall :=
  match ensureAvailable os with
  | Except.error e => Except.error e
  | Except.ok _ => Except.ok (NativeCall.openApp packageName)

/-- `tap` of `src/automation.ts`. -/
def facadeTap (os : Platform) (x y durationMs : Int) :
    Except String NativeCall :=
  match ensureAvailable os with
  | Except.error e => Except.error e
  | Except.ok _ => Except.ok (NativeCall.tap x y durationMs)

/-- `swipe` of `src/automation.ts`. -/
def facadeSwipe (os : Platform) (startX startY endX endY durationMs : Int) :
    Except String NativeCall :=
  match ensureAvailable os with
  | Except.error e => Except.error e
  | Except.ok _ => Except.ok (NativeCall.swipe startX startY endX endY durationMs)

/-- `pasteText` of `src/automation.ts`. -/
def facadePasteText (os : Platform) (text : String) :
    Except String NativeCall :=
  match ensureAvailable os with
  | Except.error e => Except.error e
  | Except.ok _ => Except.ok (NativeCall.pasteText text)

/-- Helper: the effect trace of one `pasteInternal` call never repeats an
action (the resolver makes each attempt at most once). -/
lemma pasteInternal_effects_nodup (env : ServiceEnv) (text : String)
    (st : ClipboardState) : (pasteInternal env text st).effects.Nodup := by
  unfold pasteInternal
  cases findFocusTarget env with
  | none => simp
  | some node => cases h : node.acceptsSetText <;> simp [h]

/-- C6: for every duration ≤ 0 the effective stroke duration is exactly 1,
for every duration ≥ 1 it is used unchanged, and `buildGesture` never
rejects an input: it always produces a gesture with the given path and a
duration of at least 1. -/
theorem duration_clamped_to_one (p : GesturePath) (d : Int) :
    (d ≤ 0 → (buildGesture p d).duration = 1) ∧
    (1 ≤ d → (buildGesture p d).duration = d) ∧
    (buildGesture p d).path = p ∧ 1 ≤ (buildGesture p d).duration := by
  refine ⟨?_, ?_, rfl, ?_⟩
  · intro h
    show max d 1 = 1
    omega
  · intro h
    show max d 1 = d
    omega
  · show 1 ≤ max d 1
    omega

/-- Witness for C6 at durations -5 and 7. -/
theorem duration_clamped_to_one_witness :
    ((-5 : Int) ≤ 0 ∧ (buildGesture [] (-5)).duration = 1) ∧
    ((1 : Int) ≤ 7 ∧ (buildGesture [] 7).duration = 7) :=
  ⟨⟨by decide, (duration_clamped_to_one [] (-5)).1 (by decide)⟩,
   ⟨by decide, (duration_clamped_to_one [] 7).2.1 (by decide)⟩⟩

/-- C7 counterexample: the path objects built for a degenerate swipe and
for a tap at the same point are not the same — the tap path is a lone
`moveTo`, while the swipe path carries an extra zero-length `lineTo`. -/
theorem swipe_tap_paths_differ :
    (gestureForSwipe 0 0 0 0 5).path ≠ (gestureForTap 0 0 5).path := by
  decide

/-- C7 amended: the gestures built for `swipe(x,y,x,y,d)` and `tap(x,y,d)`
trace the same set of plane points (the swipe's extra `lineTo` is
zero-length) and agree on duration and start time. -/
theorem swipe_tap_same_trace (x y d : Int) :
    pathTrace (gestureForSwipe x y x y d).path =
      pathTrace (gestureForTap x y d).path ∧
    (gestureForSwipe x y x y d).duration = (gestureForTap x y d).duration ∧
    (gestureForSwipe x y x y d).startTime = (gestureForTap x y d).startTime := by
  refine ⟨?_, rfl, rfl⟩
  show traceFrom (pt (0, 0)) [PathCmd.moveTo x y, PathCmd.lineTo x y] =
      traceFrom (pt (0, 0)) [PathCmd.moveTo x y]
  simp [traceFrom, segment_same]

/-- C1: under the platform contract for `dispatchGesture` (a synchronous
`false` return means the callback never fires; an accepted submission
delivers exactly one terminal signal), the promise of every dispatched tap
or swipe command is resolved exactly once, with a single boolean
outcome. -/
theorem gesture_token_resolved_exactly_once (b : OsBehavior)
    (x y startX startY endX endY d : Int) (h : b.wf = true) :
    (∃ v, (moduleTap true b x y d).promiseEvents =
        [PromiseOutcome.resolved v]) ∧
    (∃ v, (moduleSwipe true b startX startY endX endY d).promiseEvents =
        [PromiseOutcome.resolved v]) := by
  obtain ⟨acc, sigs⟩ := b
  cases acc with
  | false =>
    cases sigs with
    | nil => exact ⟨⟨false, rfl⟩, ⟨false, rfl⟩⟩
    | cons s rest => simp [OsBehavior.wf] at h
  | true =>
    cases sigs with
    | nil => simp [OsBehavior.wf] at h
    | cons s rest =>
      cases rest with
      | nil => exact ⟨⟨signalToBool s, rfl⟩, ⟨signalToBool s, rfl⟩⟩
      | cons t more => simp [OsBehavior.wf] at h

/-- Witness for C1: a cancelled submission resolves the promise exactly
once. -/
theorem gesture_token_resolved_exactly_once_witness :
    OsBehavior.wf ⟨true, [GestureSignal.cancelled]⟩ = true ∧
    (∃ v, (moduleTap true ⟨true, [GestureSignal.cancelled]⟩ 1 2 3).promiseEvents =
        [PromiseOutcome.resolved v]) :=
  ⟨by decide,
   (gesture_token_resolved_exactly_once ⟨true, [GestureSignal.cancelled]⟩
      1 2 0 0 5 5 3 (by decide)).1⟩

/-- C2: with a focused target present, `pasteInternal` succeeds via the
clipboard fallback (reports `true` and has written the clipboard) exactly
when set-text was rejected and paste was accepted; in that case the
clipboard afterwards holds exactly the injected text; when both actions
are rejected the call reports failure. -/
theorem pasteText_clipboard_fallback (env : ServiceEnv) (text : String)
    (st : ClipboardState) (node : NodeRef)
    (h : findFocusTarget env = some node) :
    (((pasteInternal env text st).resolved = [true] ∧
        Effect.clipboardWrite text ∈ (pasteInternal env text st).effects) ↔
      (node.acceptsSetText = false ∧ node.acceptsPaste = true)) ∧
    (node.acceptsSetText = false ∧ node.acceptsPaste = true →
      (pasteInternal env text st).clipboard = { clip := some text }) ∧
    (node.acceptsSetText = false ∧ node.acceptsPaste = false →
      (pasteInternal env text st).resolved = [false]) := by
  unfold pasteInternal
  rw [h]
  obtain ⟨s, p⟩ := node
  cases s <;> cases p <;> simp

/-- Witness for C2: a target that rejects set-text but accepts paste. -/
theorem pasteText_clipboard_fallback_witness :
    findFocusTarget ⟨some ⟨some ⟨false, true⟩, none⟩⟩ = some ⟨false, true⟩ ∧
    (pasteInternal ⟨some ⟨some ⟨false, true⟩, none⟩⟩ "hello" ⟨none⟩).clipboard =
      { clip := some "hello" } :=
  ⟨rfl,
   (pasteText_clipboard_fallback ⟨some ⟨some ⟨false, true⟩, none⟩⟩ "hello"
      ⟨none⟩ ⟨false, true⟩ rfl).2.1 ⟨rfl, rfl⟩⟩

/-- C3: whenever the focused target accepts set-text, `pasteInternal`
succeeds directly: it reports `true`, leaves the clipboard exactly as it
was, and its only effect is the set-text attempt — the clipboard write of
the fallback path is never executed. -/
theorem pasteText_direct_set (env : ServiceEnv) (text : String)
    (st : ClipboardState) (node : NodeRef)
    (h : findFocusTarget env = some node) (hs : node.acceptsSetText = true) :
    (pasteInternal env text st).resolved = [true] ∧
    (pasteInternal env text st).clipboard = st ∧
    (pasteInternal env text st).effects = [Effect.setTextAttempt text] := by
  unfold pasteInternal
  rw [h]
  simp [hs]

/-- Witness for C3: a target accepting set-text leaves an existing clip in
place. -/
theorem pasteText_direct_set_witness :
    findFocusTarget ⟨some ⟨some ⟨true, false⟩, none⟩⟩ = some ⟨true, false⟩ ∧
    (pasteInternal ⟨some ⟨some ⟨true, false⟩, none⟩⟩ "hello" ⟨some "old"⟩).clipboard =
      ⟨some "old"⟩ :=
  ⟨rfl,
   (pasteText_direct_set ⟨some ⟨some ⟨true, false⟩, none⟩⟩ "hello"
      ⟨some "old"⟩ ⟨true, false⟩ rfl rfl).2.1⟩

/-- C4: the focused-target lookup prefers input focus, falls back to
accessibility focus only when input focus is absent, and when neither
exists `pasteInternal` fails (reports `false`) without attempting
set-text, clipboard write, or paste, leaving the clipboard unchanged. -/
theorem pasteText_focus_lookup_order (env : ServiceEnv) (text : String)
    (st : ClipboardState) :
    (env.rootInActiveWindow.bind RootNode.inputFocus ≠ none →
      findFocusTarget env = env.rootInActiveWindow.bind RootNode.inputFocus) ∧
    (env.rootInActiveWindow.bind RootNode.inputFocus = none →
      findFocusTarget env =
        env.rootInActiveWindow.bind RootNode.accessibilityFocus) ∧
    (findFocusTarget env = none →
      pasteInternal env text st =
        { resolved := [false], clipboard := st, effects := [] }) := by
  refine ⟨?_, ?_, ?_⟩
  · intro h
    unfold findFocusTarget
    cases hi : env.rootInActiveWindow.bind RootNode.inputFocus with
    | none => exact absurd hi h
    | some n => rfl
  · intro h
    unfold findFocusTarget
    rw [h]
  · intro h
    unfold pasteInternal
    rw [h]

/-- Witness for C4: input focus wins over accessibility focus; with input
focus absent the accessibility-focused node is chosen; with no focus at
all the call fails with no effects. -/
theorem pasteText_focus_lookup_order_witness :
    findFocusTarget ⟨some ⟨some ⟨true, true⟩, some ⟨false, false⟩⟩⟩ =
      some ⟨true, true⟩ ∧
    findFocusTarget ⟨some ⟨none, some ⟨false, false⟩⟩⟩ = some ⟨false, false⟩ ∧
    pasteInternal ⟨none⟩ "x" ⟨none⟩ =
      { resolved := [false], clipboard := ⟨none⟩, effects := [] } :=
  ⟨((pasteText_focus_lookup_order ⟨some ⟨some ⟨true, true⟩, some ⟨false, false⟩⟩⟩
      "x" ⟨none⟩).1 (by decide)).trans rfl,
   ((pasteText_focus_lookup_order ⟨some ⟨none, some ⟨false, false⟩⟩⟩
      "x" ⟨none⟩).2.1 rfl).trans rfl,
   (pasteText_focus_lookup_order ⟨none⟩ "x" ⟨none⟩).2.2 rfl⟩

/-- C5: while no service instance is connected, `tap`, `swipe` and
`pasteText` all reject the promise with the `SERVICE_NOT_RUNNING` error
code (never a plain `false` resolution), no gesture reaches the
capability, and no injection effect is performed. -/
theorem absent_capability_rejects (os : OsBehavior)
    (x y startX startY endX endY d : Int) (env : ServiceEnv) (text : String)
    (st : ClipboardState) :
    moduleTap false os x y d =
      { promiseEvents := [PromiseOutcome.rejected serviceNotRunningCode],
        dispatched := [] } ∧
    moduleSwipe false os startX startY endX endY d =
      { promiseEvents := [PromiseOutcome.rejected serviceNotRunningCode],
        dispatched := [] } ∧
    modulePasteText false env text st =
      { promiseEvents := [PromiseOutcome.rejected serviceNotRunningCode],
        clipboard := st, effects := [] } :=
  ⟨rfl, rfl, rfl⟩

/-- C8: with a connected instance, a completed gesture resolves the promise
with `true`, while a synchronous submission refusal and a mid-flight
cancellation both resolve it with `false`, for taps and for swipes. -/
theorem terminal_outcomes_surface (x y startX startY endX endY d : Int) :
    (moduleTap true ⟨true, [GestureSignal.completed]⟩ x y d).promiseEvents =
      [PromiseOutcome.resolved true] ∧
    (moduleTap true ⟨false, []⟩ x y d).promiseEvents =
      [PromiseOutcome.resolved false] ∧
    (moduleTap true ⟨true, [GestureSignal.cancelled]⟩ x y d).promiseEvents =
      [PromiseOutcome.resolved false] ∧
    (moduleSwipe true ⟨true, [GestureSignal.completed]⟩
        startX startY endX endY d).promiseEvents =
      [PromiseOutcome.resolved true] ∧
    (moduleSwipe true ⟨false, []⟩ startX startY endX endY d).promiseEvents =
      [PromiseOutcome.resolved false] ∧
    (moduleSwipe true ⟨true, [GestureSignal.cancelled]⟩
        startX startY endX endY d).promiseEvents =
      [PromiseOutcome.resolved false] :=
  ⟨rfl, rfl, rfl, rfl, rfl, rfl⟩

/-- Whether a promise event carries an error code. -/
def PromiseOutcome.isRejected : PromiseOutcome → Bool
  | PromiseOutcome.resolved _ => false
  | PromiseOutcome.rejected _ => true

/-- C9 counterexample: a paste with no focused target (a NoFocusedTarget
failure) surfaces as the bare resolution `false` — no event of the call
carries an error code, contradicting "boolean false plus an error
code". -/
theorem failure_without_error_code :
    (modulePasteText true ⟨none⟩ "x" ⟨none⟩).promiseEvents =
      [PromiseOutcome.resolved false] ∧
    (modulePasteText true ⟨none⟩ "x" ⟨none⟩).promiseEvents.all
      (fun e => ! e.isRejected) = true :=
  ⟨rfl, rfl⟩

/-- C9 amended: every error surfaces to the immediate caller as a failed
result, but in two forms: CapabilityUnavailable and PlatformError as
error-coded rejections, while SubmissionRejected, Cancelled,
NoFocusedTarget and InjectionRejected surface as a plain `false`
resolution without a distinguishing error code; and the bridge performs no
internal retries (at most one gesture submission per call, no repeated
injection effect). -/
theorem error_propagation_amended (os : OsBehavior) (x y d : Int)
    (inst : Bool) (env : ServiceEnv) (text : String) (st : ClipboardState) :
    (moduleTap false os x y d).promiseEvents =
      [PromiseOutcome.rejected serviceNotRunningCode] ∧
    moduleOpenAccessibilitySettings true =
      PromiseOutcome.rejected "OPEN_SETTINGS_FAILED" ∧
    moduleOpenApp (some ()) true = PromiseOutcome.rejected "OPEN_APP_FAILED" ∧
    (moduleTap true ⟨false, []⟩ x y d).promiseEvents =
      [PromiseOutcome.resolved false] ∧
    (moduleTap true ⟨true, [GestureSignal.cancelled]⟩ x y d).promiseEvents =
      [PromiseOutcome.resolved false] ∧
    (modulePasteText true ⟨none⟩ text st).promiseEvents =
      [PromiseOutcome.resolved false] ∧
    (modulePasteText true ⟨some ⟨some ⟨false, false⟩, none⟩⟩ text st).promiseEvents =
      [PromiseOutcome.resolved false] ∧
    (moduleTap inst os x y d).dispatched.length ≤ 1 ∧
    (modulePasteText inst env text st).effects.Nodup := by
  refine ⟨rfl, rfl, rfl, rfl, rfl, rfl, rfl, ?_, ?_⟩
  · cases inst <;> simp [moduleTap, serviceTap]
  · cases inst
    · simp [modulePasteText, servicePasteText]
    · simpa [modulePasteText, servicePasteText] using
        pasteInternal_effects_nodup env text st

/-- C10: on every platform other than Android, each façade operation of
`src/automation.ts` rejects with the unavailability error and no call
reaches the native layer (no `NativeCall` is ever produced). -/
theorem non_android_facade_rejects (os : Platform) (packageName text : String)
    (x y startX startY endX endY d d2 : Int) (h : os ≠ Platform.android) :
    facadeIsServiceRunning os = Except.error unavailableMessage ∧
    facadeOpenAccessibilitySettings os = Except.error unavailableMessage ∧
    facadeOpenApp os packageName = Except.error unavailableMessage ∧
    facadeTap os x y d = Except.error unavailableMessage ∧
    facadeSwipe os startX startY endX endY d2 = Except.error unavailableMessage ∧
    facadePasteText os text = Except.error unavailableMessage := by
  cases os with
  | android => exact absurd rfl h
  | ios => exact ⟨rfl, rfl, rfl, rfl, rfl, rfl⟩
  | windows => exact ⟨rfl, rfl, rfl, rfl, rfl, rfl⟩
  | macos => exact ⟨rfl, rfl, rfl, rfl, rfl, rfl⟩
  | web => exact ⟨rfl, rfl, rfl, rfl, rfl, rfl⟩

/-- Witness for C10 on iOS. -/
theorem non_android_facade_rejects_witness :
    Platform.ios ≠ Platform.android ∧
    facadePasteText Platform.ios "hello" = Except.error unavailableMessage :=
  ⟨by decide,
   (non_android_facade_rejects Platform.ios "pkg" "hello" 0 0 0 0 0 0 0 0
      (by decide)).2.2.2.2.2⟩
